import Mathlib

/-!
Verification of the data-store module `src/dashboard/src/context/data.tsx` of
thalesfsp/garden.

The module holds a `Store` of four named slices (`config`, `status`, `graph`,
`logs`), each a `{data, loading, error}` triple, and exposes load actions that
either read from the cache or fetch, recording the outcome back into the slice.

The embedding is shallow:
* payload types (`FetchConfigResponse`, …) and the error type are opaque to the
  module, so they are type parameters `C S G L E`;
* `data: T | null` is `Option` — the JS truthiness test `data || loading` on a
  value typed `T | null` with `T` an object type is `data.isSome || loading`;
* the React `useState` store is modelled by a small event system `Sys`/`step`:
  functional `setData` updates are applied in program order to `Sys.store`,
  while the actions read the render snapshot `Sys.renderStore` (the `store`
  value closed over by `fetchOrReadFromStore`), which catches up with the
  committed store only at a `render` event;
* each started fetch is an entry `(id, sliceName)` in `Sys.inflight`, removed
  when its `settle` event (resolution or rejection of the promise) is
  processed; `Sys.fetchCount` counts invocations of the underlying fetch
  functions.
-/

namespace GardenDashboard

/-- The four slice names of the store (`type SliceName = keyof Store`). -/
inductive SliceName : Type where
  | config
  | status
  | graph
  | logs
deriving DecidableEq, Fintype

/-- One slice of the store: `interface StoreSlice { error, loading }` together
with the `data` field added by each of `Config`/`Status`/`Graph`/`Logs`. -/
structure StoreSlice (α E : Type) where
  data : Option α
  loading : Bool
  error : Option E
deriving DecidableEq

/-- The global data store (`interface Store`): a fixed record of four slices,
with payload types `C S G L` and error type `E` kept opaque. -/
structure Store (C S G L E : Type) where
  config : StoreSlice C E
  status : StoreSlice S E
  graph : StoreSlice G E
  logs : StoreSlice L E
deriving DecidableEq

/-- Payload type of each slice. -/
@[reducible] def PayloadT (C S G L : Type) : SliceName → Type
  | .config => C
  | .status => S
  | .graph => G
  | .logs => L

variable {C S G L E : Type}

/-- Read the named slice (`store[key]`). -/
def Store.get (s : Store C S G L E) : (k : SliceName) → StoreSlice (PayloadT C S G L k) E
  | .config => s.config
  | .status => s.status
  | .graph => s.graph
  | .logs => s.logs

/-- A partial slice state (the `sliceState: Object` argument of `updateSlice`):
any subset of the three fields may be present. -/
structure SlicePartial (α E : Type) where
  data : Option (Option α)
  loading : Option Bool
  error : Option (Option E)
deriving DecidableEq

/-- JS object spread `{ ...prevSliceState, ...sliceState }`: a field present in
the partial overrides, an absent field keeps the prior value. -/
def applyPartial (sl : StoreSlice α E) (p : SlicePartial α E) : StoreSlice α E :=
  { data := p.data.getD sl.data
    loading := p.loading.getD sl.loading
    error := p.error.getD sl.error }

/-- `updateSlice(prevState, key, sliceState)`: copy of the store with the named
slice shallow-merged with the partial. -/
def updateSlice (prevState : Store C S G L E) (key : SliceName)
    (sliceState : SlicePartial (PayloadT C S G L key) E) : Store C S G L E :=
  match key, sliceState with
  | .config, p => { prevState with config := applyPartial prevState.config p }
  | .status, p => { prevState with status := applyPartial prevState.status p }
  | .graph, p => { prevState with graph := applyPartial prevState.graph p }
  | .logs, p => { prevState with logs := applyPartial prevState.logs p }

/-- The `initialState` built in the source by the `reduce` over `sliceNames`:
every slice is `{ data: null, loading: false, error: null }`. -/
def initialState (C S G L E : Type) : Store C S G L E :=
  { config := ⟨none, false, none⟩
    status := ⟨none, false, none⟩
    graph := ⟨none, false, none⟩
    logs := ⟨none, false, none⟩ }

/-- The partial `{ loading: true }` passed by the first update of `fetch`. -/
def loadingTruePartial : SlicePartial α E := ⟨none, some true, none⟩

/-- The partial `{ loading: false }` passed by the last update of `fetch`. -/
def loadingFalsePartial : SlicePartial α E := ⟨none, some false, none⟩

/-- The second update of `fetch`: `{ data: res, error: null }` when the fetch
function resolves, `{ error }` when it rejects. -/
def outcomePartial : Except E α → SlicePartial α E
  | .ok v => ⟨some (some v), none, some none⟩
  | .error e => ⟨none, none, some (some e)⟩

/-- The part of `fetch` that runs when the awaited fetch function settles with
`out`: the data/error update followed by the `{ loading: false }` update, both
in the same continuation. -/
def settleStore (st : Store C S G L E) (k : SliceName)
    (out : Except E (PayloadT C S G L k)) : Store C S G L E :=
  updateSlice (updateSlice st k (outcomePartial out)) k loadingFalsePartial

/-- The guard of `fetchOrReadFromStore`: `!force && (data || loading)` means
"return without fetching". -/
def noFetchGuard (sl : StoreSlice α E) (force : Bool) : Bool :=
  !force && (sl.data.isSome || sl.loading)

/-- The `.catch` handler on `fetch(keyActionPair)` in `fetchOrReadFromStore`:
`setData(prevState => updateSlice(prevState, key, { error }))`. -/
def fetchCatchHandler (st : Store C S G L E) (k : SliceName) (e : E) : Store C S G L E :=
  updateSlice st k ⟨none, none, some (some e)⟩

section Helpers

theorem updateSlice_get_self (st : Store C S G L E) (k : SliceName)
    (p : SlicePartial (PayloadT C S G L k) E) :
    (updateSlice st k p).get k = applyPartial (st.get k) p := by
  cases k <;> rfl

theorem updateSlice_get_other (st : Store C S G L E) (k k' : SliceName)
    (h : k' ≠ k) (p : SlicePartial (PayloadT C S G L k) E) :
    (updateSlice st k p).get k' = st.get k' := by
  cases k <;> cases k' <;> first | rfl | exact absurd rfl h

theorem settleStore_get_self (st : Store C S G L E) (k : SliceName)
    (out : Except E (PayloadT C S G L k)) :
    (settleStore st k out).get k
      = applyPartial (applyPartial (st.get k) (outcomePartial out)) loadingFalsePartial := by
  simp [settleStore, updateSlice_get_self]

theorem settleStore_loading_false (st : Store C S G L E) (k : SliceName)
    (out : Except E (PayloadT C S G L k)) :
    ((settleStore st k out).get k).loading = false := by
  simp [settleStore_get_self, applyPartial, loadingFalsePartial]

theorem settleStore_get_other (st : Store C S G L E) (k k' : SliceName)
    (h : k' ≠ k) (out : Except E (PayloadT C S G L k)) :
    (settleStore st k out).get k' = st.get k' := by
  simp [settleStore, updateSlice_get_other st k k' h, updateSlice_get_other _ k k' h]

end Helpers

/-- C2: when the fetch function resolves successfully with value `v`, the slice
state after the `fetch` update sequence (`loading: true`, then
`{data: v, error: null}`, then `loading: false`) completes is exactly
`{data: v, error: null, loading: false}`, for every prior store state. -/
theorem fetch_success_final_state (st : Store C S G L E) (k : SliceName)
    (v : PayloadT C S G L k) :
    (settleStore (updateSlice st k loadingTruePartial) k (Except.ok v)).get k
      = { data := some v, loading := false, error := none } := by
  cases k <;> rfl

/-- C3: when the fetch function rejects with error `e`, the slice state after
the `fetch` update sequence completes keeps the `data` it had before the fetch
(the error branch passes only `{ error }`, never touching `data`), records the
error, and clears `loading`. -/
theorem fetch_error_preserves_data (st : Store C S G L E) (k : SliceName) (e : E) :
    (settleStore (updateSlice st k loadingTruePartial) k (Except.error e)).get k
      = { data := (st.get k).data, loading := false, error := some e } := by
  cases k <;> rfl

/-- C4: `updateSlice` returns a store whose named slice is the shallow merge of
the previous slice with the partial — each field present in the partial takes
the partial's value, each absent field keeps its prior value — and whose other
slices equal those of the input store. -/
theorem updateSlice_shallow_merge (st : Store C S G L E) (k : SliceName)
    (p : SlicePartial (PayloadT C S G L k) E) :
    ((updateSlice st k p).get k).data = p.data.getD ((st.get k).data)
    ∧ ((updateSlice st k p).get k).loading = p.loading.getD ((st.get k).loading)
    ∧ ((updateSlice st k p).get k).error = p.error.getD ((st.get k).error)
    ∧ ∀ k' : SliceName, k' ≠ k → (updateSlice st k p).get k' = st.get k' := by
  refine ⟨?_, ?_, ?_, fun k' h => updateSlice_get_other st k k' h p⟩ <;> cases k <;> rfl

/-- Witness for C4 at a concrete input: merging `{data: some 5}` into the
initial `config` slice sets `data` and keeps `loading`/`error`, and leaves the
`status` slice unchanged. -/
theorem updateSlice_shallow_merge_witness :
    ((updateSlice (initialState Nat Nat Nat Nat Nat) .config
        ⟨some (some 5), none, none⟩).get .config).data = some 5
    ∧ ((updateSlice (initialState Nat Nat Nat Nat Nat) .config
        ⟨some (some 5), none, none⟩).get .config).loading = false
    ∧ (SliceName.status ≠ SliceName.config
        ∧ (updateSlice (initialState Nat Nat Nat Nat Nat) .config
            ⟨some (some 5), none, none⟩).get .status
          = (initialState Nat Nat Nat Nat Nat).get .status) :=
  ⟨(updateSlice_shallow_merge (initialState Nat Nat Nat Nat Nat) .config
      ⟨some (some 5), none, none⟩).1,
   (updateSlice_shallow_merge (initialState Nat Nat Nat Nat Nat) .config
      ⟨some (some 5), none, none⟩).2.1,
   by decide,
   (updateSlice_shallow_merge (initialState Nat Nat Nat Nat Nat) .config
      ⟨some (some 5), none, none⟩).2.2.2 .status (by decide)⟩

/-- C5: `updateSlice` is a pure copy-on-write function — in this embedding it
returns a new `Store` value and the input store is untouched by construction —
and every slice other than the named one is unchanged (equality here models
reference identity: the source spreads `...prevState`, reusing the other slice
objects); there are exactly three such other slices. -/
theorem updateSlice_frame_other_slices (st : Store C S G L E) (k : SliceName)
    (p : SlicePartial (PayloadT C S G L k) E) :
    (∀ k' : SliceName, k' ≠ k → (updateSlice st k p).get k' = st.get k')
    ∧ (Finset.univ.filter (fun k' : SliceName => k' ≠ k)).card = 3 := by
  refine ⟨fun k' h => updateSlice_get_other st k k' h p, ?_⟩
  cases k <;> decide

/-- Witness for C5 at a concrete input: updating `logs` leaves `graph`
unchanged, and the three non-`logs` slices are exactly three. -/
theorem updateSlice_frame_other_slices_witness :
    (SliceName.graph ≠ SliceName.logs
      ∧ (updateSlice (initialState Nat Nat Nat Nat Nat) .logs
          ⟨none, some true, none⟩).get .graph
        = (initialState Nat Nat Nat Nat Nat).get .graph)
    ∧ (Finset.univ.filter (fun k' : SliceName => k' ≠ SliceName.logs)).card = 3 :=
  ⟨⟨by decide,
    (updateSlice_frame_other_slices (initialState Nat Nat Nat Nat Nat) .logs
      ⟨none, some true, none⟩).1 .graph (by decide)⟩,
   (updateSlice_frame_other_slices (initialState Nat Nat Nat Nat Nat) .logs
      ⟨none, some true, none⟩).2⟩

/-- C8: no load action propagates an error to its caller — in the embedding
both catch layers are total functions into `Store`. The inner `try/catch` of
`fetch` records a rejection of the fetch function into the slice's `error`
field (and still clears `loading`); the outer `.catch` in
`fetchOrReadFromStore` records an error of the fetch orchestration itself into
the same `error` field. -/
theorem errors_recorded_in_slice (st : Store C S G L E) (k : SliceName) (e : E) :
    (((settleStore st k (Except.error e)).get k).error = some e
      ∧ ((settleStore st k (Except.error e)).get k).loading = false)
    ∧ ((fetchCatchHandler st k e).get k).error = some e := by
  refine ⟨⟨?_, settleStore_loading_false st k (Except.error e)⟩, ?_⟩ <;> cases k <;> rfl

/-- C10: the success branch of `fetch` installs the new data and clears the
error in one single `updateSlice` replacement: already in the intermediate
store produced by that one update — and in the final store after the
`loading: false` update — the slice holds the new data with `error = null`, so
no store in the update sequence pairs the newly fetched data with a previous
error. -/
theorem success_update_atomic (st : Store C S G L E) (k : SliceName)
    (v : PayloadT C S G L k) :
    (((updateSlice st k (outcomePartial (Except.ok v))).get k).data = some v
      ∧ ((updateSlice st k (outcomePartial (Except.ok v))).get k).error = none)
    ∧ (((settleStore st k (Except.ok v)).get k).data = some v
      ∧ ((settleStore st k (Except.ok v)).get k).error = none) := by
  refine ⟨⟨?_, ?_⟩, ?_, ?_⟩ <;> cases k <;> rfl

/-! ### Event system

`useApi` holds the store in React state. The actions read the render snapshot
(`const { data, loading } = store[key]` closes over the `store` of the render
that created the action) while all writes go through functional
`setData(prevState => ...)` updates, applied in order to the committed store.
A `render` event publishes the committed store as the new snapshot. -/

/-- System state: committed store, render snapshot read by the actions, the
set of in-flight fetches (id and slice), the next fetch id, and the number of
fetch-function invocations so far. -/
structure Sys (C S G L E : Type) where
  store : Store C S G L E
  renderStore : Store C S G L E
  inflight : List (Nat × SliceName)
  nextId : Nat
  fetchCount : Nat
deriving DecidableEq

/-- Events: a call of a load action with a `force` flag, a re-render, and the
settling (resolution `ok` or rejection `error`) of an in-flight fetch. -/
inductive Ev (C S G L E : Type) : Type where
  | call (k : SliceName) (force : Bool)
  | render
  | settle (fid : Nat) (k : SliceName) (out : Except E (PayloadT C S G L k))

/-- One step of the system.

* `call`: `fetchOrReadFromStore` checks `!force && (data || loading)` on the
  render snapshot; if the guard holds it returns without any effect, otherwise
  it invokes the fetch function: `fetch` synchronously applies the
  `{ loading: true }` update and the fetch goes in flight.
* `render`: the committed store becomes the snapshot the actions read.
* `settle`: if the fetch is in flight, its continuation applies the data/error
  update and the `{ loading: false }` update (`settleStore`) and the fetch is
  no longer in flight; settling an unknown fetch id is a no-op. -/
def step (s : Sys C S G L E) : Ev C S G L E → Sys C S G L E
  | .call k force =>
      if noFetchGuard (s.renderStore.get k) force then s
      else
        { store := updateSlice s.store k loadingTruePartial
          renderStore := s.renderStore
          inflight := s.inflight ++ [(s.nextId, k)]
          nextId := s.nextId + 1
          fetchCount := s.fetchCount + 1 }
  | .render => { s with renderStore := s.store }
  | .settle fid k out =>
      if (fid, k) ∈ s.inflight then
        { s with
          store := settleStore s.store k out
          inflight := s.inflight.filter (fun p => decide (p ≠ (fid, k))) }
      else s

/-- Run a list of events from a state. -/
def runFrom (s : Sys C S G L E) : List (Ev C S G L E) → Sys C S G L E
  | [] => s
  | e :: evs => runFrom (step s e) evs

/-- The provider's initial system state: `initialState` committed and
rendered, nothing in flight, nothing fetched. -/
def initSys (C S G L E : Type) : Sys C S G L E :=
  { store := initialState C S G L E
    renderStore := initialState C S G L E
    inflight := []
    nextId := 0
    fetchCount := 0 }

/-- `loadConfig(force)` = `fetchOrReadFromStore(["config", fetchConfig], force)`. -/
def loadConfig (s : Sys C S G L E) (force : Bool) : Sys C S G L E :=
  step s (Ev.call .config force)

/-- `loadStatus(force)` = `fetchOrReadFromStore(["status", fetchStatus], force)`. -/
def loadStatus (s : Sys C S G L E) (force : Bool) : Sys C S G L E :=
  step s (Ev.call .status force)

/-- `loadGraph(force)` = `fetchOrReadFromStore(["graph", fetchGraph], force)`. -/
def loadGraph (s : Sys C S G L E) (force : Bool) : Sys C S G L E :=
  step s (Ev.call .graph force)

/-- `loadLogs(force)` = `fetchOrReadFromStore(["logs", fetchLogs], force)`. -/
def loadLogs (s : Sys C S G L E) (force : Bool) : Sys C S G L E :=
  step s (Ev.call .logs force)

/-- C1: a load action invokes the fetch function exactly when `force` is true
or the slice (as the action reads it) has `data = null` and `loading = false`;
in every other case it performs zero fetch invocations and leaves the whole
system state — the store included — unchanged. -/
theorem load_invokes_fetch_iff (s : Sys C S G L E) (k : SliceName) (force : Bool) :
    ((step s (Ev.call k force)).fetchCount = s.fetchCount + 1
      ↔ (force = true
          ∨ ((s.renderStore.get k).data = none ∧ (s.renderStore.get k).loading = false)))
    ∧ ((force = false
          ∧ ((s.renderStore.get k).data ≠ none ∨ (s.renderStore.get k).loading = true))
        → step s (Ev.call k force) = s) := by
  cases force <;>
    rcases hd : (s.renderStore.get k).data with _ | v <;>
    rcases hl : (s.renderStore.get k).loading with _ | _ <;>
    simp [step, noFetchGuard, hd, hl]

/-- Witness for C1 at concrete inputs: from the initial state a plain
`loadConfig` call fetches once, and after that fetch is in flight and a
re-render has published `loading = true`, a second plain call satisfies the
no-op hypothesis and leaves the system unchanged. -/
theorem load_invokes_fetch_iff_witness :
    ((step (initSys Nat Nat Nat Nat Nat) (Ev.call .config false)).fetchCount
        = (initSys Nat Nat Nat Nat Nat).fetchCount + 1)
    ∧ (false = false
        ∧ (((runFrom (initSys Nat Nat Nat Nat Nat)
                [Ev.call .config false, Ev.render]).renderStore.get .config).data ≠ none
            ∨ ((runFrom (initSys Nat Nat Nat Nat Nat)
                [Ev.call .config false, Ev.render]).renderStore.get .config).loading = true))
    ∧ step (runFrom (initSys Nat Nat Nat Nat Nat) [Ev.call .config false, Ev.render])
          (Ev.call .config false)
        = runFrom (initSys Nat Nat Nat Nat Nat) [Ev.call .config false, Ev.render] :=
  ⟨(load_invokes_fetch_iff (initSys Nat Nat Nat Nat Nat) .config false).1.mpr (by decide),
   by decide,
   (load_invokes_fetch_iff
      (runFrom (initSys Nat Nat Nat Nat Nat) [Ev.call .config false, Ev.render])
      .config false).2 (by decide)⟩

/-- C6 counterexample: two `loadConfig()` calls in the same render snapshot —
"in quick succession", before the first call's fetch has settled and before
any re-render — invoke the underlying fetch function twice, not once: the
second call still reads `loading = false`, `data = null` from the snapshot
both closures share, so the `!force && (data || loading)` guard does not fire.
Both fetches are in flight afterwards, so the second call indeed preceded the
first call's resolution. -/
theorem double_call_two_fetches :
    (loadConfig (loadConfig (initSys Nat Nat Nat Nat Nat) false) false).fetchCount = 2
    ∧ ¬ (loadConfig (loadConfig (initSys Nat Nat Nat Nat Nat) false) false).fetchCount = 1
    ∧ (loadConfig (loadConfig (initSys Nat Nat Nat Nat Nat) false) false).inflight
        = [(0, SliceName.config), (1, SliceName.config)] := by
  decide

/-- C6 (amended): two `loadConfig()` calls without `force`, the second before
the first call's fetch has settled, invoke the fetch function exactly once
provided a re-render publishes the first call's `loading = true` to the
snapshot the actions read before the second call; without such a re-render
both calls share the initial snapshot and the fetch runs twice. -/
theorem double_call_coalesced_after_render (C S G L E : Type) (k : SliceName) :
    (runFrom (initSys C S G L E) [Ev.call k false, Ev.render, Ev.call k false]).fetchCount = 1
    ∧ (runFrom (initSys C S G L E) [Ev.call k false, Ev.render, Ev.call k false]).inflight
        = [(0, k)] := by
  cases k <;> exact ⟨rfl, rfl⟩

/-- C7: when the guard lets a load action fetch, the store after the call and
the subsequent settling of that fetch is exactly the three `updateSlice`
applications of `fetch` in program order — `{ loading: true }` first, the
data/error update for the outcome second, `{ loading: false }` third — and
the first partial carries no `data` or `error` field. -/
theorem fetch_three_updates_in_order (s : Sys C S G L E) (k : SliceName) (force : Bool)
    (out : Except E (PayloadT C S G L k))
    (h : noFetchGuard (s.renderStore.get k) force = false) :
    (runFrom s [Ev.call k force, Ev.settle s.nextId k out]).store
      = updateSlice
          (updateSlice (updateSlice s.store k loadingTruePartial) k (outcomePartial out))
          k loadingFalsePartial
    ∧ (loadingTruePartial : SlicePartial (PayloadT C S G L k) E).data = none
    ∧ (loadingTruePartial : SlicePartial (PayloadT C S G L k) E).error = none
    ∧ (loadingTruePartial : SlicePartial (PayloadT C S G L k) E).loading = some true := by
  refine ⟨?_, rfl, rfl, rfl⟩
  simp only [runFrom, step, h, if_neg (by simp [h] : ¬ noFetchGuard (s.renderStore.get k) force = true)]
  simp [settleStore]

/-- Witness for C7 at concrete inputs: from the initial state, a plain
`loadConfig` call whose fetch resolves with `7` produces exactly the
three-update composition. -/
theorem fetch_three_updates_in_order_witness :
    noFetchGuard ((initSys Nat Nat Nat Nat Nat).renderStore.get .config) false = false
    ∧ (runFrom (initSys Nat Nat Nat Nat Nat)
          [Ev.call .config false,
           Ev.settle (initSys Nat Nat Nat Nat Nat).nextId .config (Except.ok 7)]).store
        = updateSlice
            (updateSlice
              (updateSlice (initSys Nat Nat Nat Nat Nat).store .config loadingTruePartial)
              .config (outcomePartial (Except.ok 7)))
            .config loadingFalsePartial :=
  ⟨by decide,
   (fetch_three_updates_in_order (initSys Nat Nat Nat Nat Nat) .config false
      (Except.ok 7) (by decide)).1⟩

/-- The C9 invariant: a slice whose `loading` flag is set has a fetch for it
in flight. -/
def LoadingInflight (s : Sys C S G L E) : Prop :=
  ∀ k : SliceName, (s.store.get k).loading = true → ∃ p ∈ s.inflight, p.2 = k

theorem loadingInflight_initSys : LoadingInflight (initSys C S G L E) := by
  intro k hk
  cases k <;> simp [initSys, initialState, Store.get] at hk

theorem loadingInflight_step (s : Sys C S G L E) (e : Ev C S G L E)
    (h : LoadingInflight s) : LoadingInflight (step s e) := by
  cases e with
  | call k' force =>
      simp only [step]
      split
      · exact h
      · intro k hk
        by_cases hkk : k = k'
        · subst hkk
          exact ⟨(s.nextId, k), List.mem_append_right _ (List.mem_singleton.mpr rfl), rfl⟩
        · rw [show ((updateSlice s.store k' loadingTruePartial).get k)
                = s.store.get k from updateSlice_get_other s.store k' k hkk _] at hk
          obtain ⟨p, hp, hpk⟩ := h k hk
          exact ⟨p, List.mem_append_left _ hp, hpk⟩
  | render => exact h
  | settle fid k' out =>
      simp only [step]
      split
      · intro k hk
        by_cases hkk : k = k'
        · subst hkk
          rw [settleStore_loading_false] at hk
          exact absurd hk (by simp)
        · rw [show ((settleStore s.store k' out).get k)
                = s.store.get k from settleStore_get_other s.store k' k hkk out] at hk
          obtain ⟨p, hp, hpk⟩ := h k hk
          refine ⟨p, List.mem_filter.mpr ⟨hp, ?_⟩, hpk⟩
          simp only [decide_eq_true_eq]
          intro hpe
          exact hkk (by rw [← hpk, hpe])
      · exact h

theorem loadingInflight_runFrom (s : Sys C S G L E) (evs : List (Ev C S G L E))
    (h : LoadingInflight s) : LoadingInflight (runFrom s evs) := by
  induction evs generalizing s with
  | nil => exact h
  | cons e evs ih => exact ih (step s e) (loadingInflight_step s e h)

/-- C9: in every state reachable from the initial state, `loading = true` for
a slice implies a fetch for that slice is in flight; and a settle event for an
in-flight fetch clears the slice's `loading` flag and removes the fetch from
flight, so that settling the same fetch again is a no-op — no settled fetch
leaves `loading` permanently true. -/
theorem loading_implies_fetch_inflight (evs : List (Ev C S G L E)) (k : SliceName) :
    (((runFrom (initSys C S G L E) evs).store.get k).loading = true →
        ∃ p ∈ (runFrom (initSys C S G L E) evs).inflight, p.2 = k)
    ∧ ∀ (fid : Nat) (out : Except E (PayloadT C S G L k)),
        (fid, k) ∈ (runFrom (initSys C S G L E) evs).inflight →
        (((step (runFrom (initSys C S G L E) evs) (Ev.settle fid k out)).store.get k).loading
            = false
          ∧ (fid, k) ∉ (step (runFrom (initSys C S G L E) evs) (Ev.settle fid k out)).inflight) := by
  refine ⟨loadingInflight_runFrom _ evs loadingInflight_initSys k, ?_⟩
  intro fid out hmem
  simp only [step, if_pos hmem]
  refine ⟨settleStore_loading_false _ k out, ?_⟩
  intro hin
  have := (List.mem_filter.mp hin).2
  simp at this

/-- Witness for C9 at concrete inputs: after one plain `loadConfig` call the
`config` slice is loading with its fetch in flight, and settling that fetch
clears the flag and retires the fetch. -/
theorem loading_implies_fetch_inflight_witness :
    (((runFrom (initSys Nat Nat Nat Nat Nat) [Ev.call .config false]).store.get .config).loading
        = true)
    ∧ (∃ p ∈ (runFrom (initSys Nat Nat Nat Nat Nat) [Ev.call .config false]).inflight,
        p.2 = SliceName.config)
    ∧ ((0, SliceName.config)
        ∈ (runFrom (initSys Nat Nat Nat Nat Nat) [Ev.call .config false]).inflight)
    ∧ (((step (runFrom (initSys Nat Nat Nat Nat Nat) [Ev.call .config false])
          (Ev.settle 0 .config (Except.ok 3))).store.get .config).loading = false
        ∧ (0, SliceName.config)
            ∉ (step (runFrom (initSys Nat Nat Nat Nat Nat) [Ev.call .config false])
                (Ev.settle 0 .config (Except.ok 3))).inflight) :=
  ⟨by decide,
   (loading_implies_fetch_inflight [Ev.call .config false] .config).1 (by decide),
   by decide,
   (loading_implies_fetch_inflight [Ev.call .config false] .config).2 0 (Except.ok 3)
     (by decide)⟩

end GardenDashboard
